import Mathlib

/-!
# Verification of the zebar provider runtime

Shallow embedding of the provider runtime of the zebar repository
(packages/desktop/src/providers), together with theorems checking the
natural-language specification against it.  Each embedded definition is
translated from the Rust source file named in its doc comment; definitions
whose source is not part of the repository snapshot are modelled from the
specification and say so explicitly.
-/

namespace Zebar

/- ================= Weather status banding ================= -/

/-- `WeatherStatus` enum of the day/night-aware weather provider,
`providers/weather/weather_provider.rs` lines 32-47. -/
inductive WeatherStatus where
  | ClearDay
  | ClearNight
  | CloudyDay
  | CloudyNight
  | LightRainDay
  | LightRainNight
  | HeavyRainDay
  | HeavyRainNight
  | SnowDay
  | SnowNight
  | ThunderDay
  | ThunderNight
  deriving DecidableEq, Repr

/-- `WeatherProvider::get_weather_status`,
`providers/weather/weather_provider.rs` lines 116-151.  The Rust `match` on a
`u32` code with ordered ranges `0`, `1..=50`, `51..=62`, `63..=70`, `71..=79`,
`80..=84`, `85..=94`, `95..=u32::MAX` is translated to the equivalent chain of
range tests on `Nat` (codes are `u32` values, so below `2^32`). -/
def WeatherProvider.get_weather_status (code : Nat) (is_daytime : Bool) :
    WeatherStatus :=
  if code = 0 then
    if is_daytime then WeatherStatus.ClearDay else WeatherStatus.ClearNight
  else if code ≤ 50 then
    if is_daytime then WeatherStatus.CloudyDay else WeatherStatus.CloudyNight
  else if code ≤ 62 then
    if is_daytime then WeatherStatus.LightRainDay
    else WeatherStatus.LightRainNight
  else if code ≤ 70 then
    if is_daytime then WeatherStatus.HeavyRainDay
    else WeatherStatus.HeavyRainNight
  else if code ≤ 79 then
    if is_daytime then WeatherStatus.SnowDay else WeatherStatus.SnowNight
  else if code ≤ 84 then
    if is_daytime then WeatherStatus.HeavyRainDay
    else WeatherStatus.HeavyRainNight
  else if code ≤ 94 then
    if is_daytime then WeatherStatus.SnowDay else WeatherStatus.SnowNight
  else
    if is_daytime then WeatherStatus.ThunderDay else WeatherStatus.ThunderNight

/-- Status enum used by the legacy weather provider
(`providers/weather/provider.rs`).  Its defining module is not part of the
snapshot; the constructors are exactly those appearing in the `match` arms of
`WeatherProvider::get_weather_status` at lines 37-55 of that file. -/
inductive WeatherStatusLegacy where
  | ClearDay
  | ClearNight
  | CloudyDay
  | CloudyNight
  | Overcast
  | LightRain
  | HeavyRain
  | Snow
  deriving DecidableEq, Repr

/-- Legacy `WeatherProvider::get_weather_status`,
`providers/weather/provider.rs` lines 37-55: ranges `0`, `1 | 2`, `3..=50`,
`51..=62`, `63..=70`, `71..=79`, `80..=84`, `85..=94`, `95..=u32::MAX`; only
the first two arms branch on `is_daytime`. -/
def WeatherProviderLegacy.get_weather_status (code : Nat) (is_daytime : Bool) :
    WeatherStatusLegacy :=
  if code = 0 then
    if is_daytime then WeatherStatusLegacy.ClearDay
    else WeatherStatusLegacy.ClearNight
  else if code = 1 ∨ code = 2 then
    if is_daytime then WeatherStatusLegacy.CloudyDay
    else WeatherStatusLegacy.CloudyNight
  else if code ≤ 50 then WeatherStatusLegacy.Overcast
  else if code ≤ 62 then WeatherStatusLegacy.LightRain
  else if code ≤ 70 then WeatherStatusLegacy.HeavyRain
  else if code ≤ 79 then WeatherStatusLegacy.Snow
  else if code ≤ 84 then WeatherStatusLegacy.HeavyRain
  else if code ≤ 94 then WeatherStatusLegacy.Snow
  else WeatherStatusLegacy.Snow

/- ================= Provider trait and threading dispatch ================= -/

/-- `ThreadingType` enum, `providers/provider.rs` lines 29-32.  Its doc
comment in the source reads: "Determines whether `run_sync` or `run_async`
is called." -/
inductive ThreadingType where
  | Sync
  | Async
  deriving DecidableEq, Repr

/-- Observable behavior of one of the `Provider` trait's run callbacks:
either the body generated by `impl_interval_provider` (the interval loop)
runs, or the callback is still the trait's `todo!()` default
(`providers/provider.rs` lines 11-20), which panics. -/
inductive RunBody where
  | intervalLoop
  | todoUnimplemented
  deriving DecidableEq, Repr

/-- The `Provider` trait surface relevant to dispatch,
`providers/provider.rs` lines 7-26: a `threading_type` tag and the two run
callbacks, each of which defaults to the `todo!()` body unless an `impl`
overrides it. -/
structure ProviderDispatch where
  threading_type : ThreadingType
  run_async : RunBody := RunBody.todoUnimplemented
  run_sync : RunBody := RunBody.todoUnimplemented
  deriving DecidableEq, Repr

/-- The `impl` generated by `impl_interval_provider` for any provider type,
`providers/provider.rs` lines 42-84: `threading_type` returns
`ThreadingType::Sync` (lines 43-45), `run_async` is overridden with the
interval loop (lines 47-83), and `run_sync` is left at the trait default. -/
def intervalProviderDispatch : ProviderDispatch :=
  { threading_type := ThreadingType.Sync
    run_async := RunBody.intervalLoop
    run_sync := RunBody.todoUnimplemented }

/-- The run callback selected by a provider's `threading_type` tag, per the
tag's doc comment in `providers/provider.rs` line 28: `run_sync` when the tag
is `Sync`, `run_async` when it is `Async`. -/
def selectedRun (p : ProviderDispatch) : RunBody :=
  match p.threading_type with
  | ThreadingType.Sync => p.run_sync
  | ThreadingType.Async => p.run_async

/- ================= Interval loop of impl_interval_provider ============== -/

/-- State of the loop generated by `impl_interval_provider`
(`providers/provider.rs` lines 62-82), observed over a run:
`last_interval_res` is the variable of the same name; `sent` collects every
result passed to `emit_result_tx.send`, in order; `delivered` collects the
sends that succeeded (a failed send is only logged, line 76-78). -/
structure IntervalLoopState (α : Type) where
  last_interval_res : Option α
  sent : List α
  delivered : List α
  deriving DecidableEq, Repr

/-- One iteration of the `impl_interval_provider` loop body,
`providers/provider.rs` lines 66-82: after the tick, `interval_res` is the
`run_interval` result; it is sent iff `$allow_identical_emits` is true or it
differs from `last_interval_res`, and whenever it is sent,
`last_interval_res` is set to it — whether or not the send succeeded
(`sendOk`). -/
def intervalTick {α : Type} [DecidableEq α] (allow_identical_emits : Bool)
    (s : IntervalLoopState α) (interval_res : α) (sendOk : Bool) :
    IntervalLoopState α :=
  if allow_identical_emits = true ∨ s.last_interval_res ≠ some interval_res
  then
    { last_interval_res := some interval_res
      sent := s.sent ++ [interval_res]
      delivered := s.delivered ++ if sendOk then [interval_res] else [] }
  else s

/-- A run of the `impl_interval_provider` loop over a finite prefix of ticks,
each tick carrying its `run_interval` result and whether the channel send
would succeed.  `last_interval_res` starts as `None`
(`providers/provider.rs` lines 62-64). -/
def intervalRun {α : Type} [DecidableEq α] (allow_identical_emits : Bool)
    (ticks : List (α × Bool)) : IntervalLoopState α :=
  ticks.foldl (fun s t => intervalTick allow_identical_emits s t.1 t.2)
    ⟨none, [], []⟩

/- ============== Select loops of the disk/ip/weather providers =========== -/

/-- Input message received by a running provider.  The name is taken from the
source (`providers/disk/disk_provider.rs` line 118, `ip_provider.rs` line 94,
`weather_provider.rs` line 170 all match on `ProviderInputMsg::Stop`); the
defining module is not part of the snapshot.  Modelled from the spec: the
stop signal is the only input the scheduler reacts to (spec section 4.2). -/
inductive ProviderInputMsg where
  | Stop
  deriving DecidableEq, Repr

/-- One arm of the `select!` in a provider loop: either the interval ticks
and `run_interval` produces a result (of type `Except ε α`, the embedding of
`anyhow::Result`), or a message arrives on the input channel. -/
inductive LoopEvent (ε α : Type) where
  | tick (res : Except ε α)
  | msg (m : ProviderInputMsg)

/-- Observable state of a provider select loop over a run: the values
delivered to subscribers so far, the number of `run_interval` refreshes
executed, and whether the loop has exited via `break`. -/
structure LoopState (α : Type) where
  emissions : List α
  refreshes : Nat
  stopped : Bool
  deriving DecidableEq, Repr

/-- Modelled from the spec: `ProviderEmitter::emit_output` is not part of the
snapshot.  Per spec sections 4.2 and 7, a refresh failure is caught and
logged, the previous Output is retained and no error value is emitted, while
an `Ok` output is delivered as one emission. -/
def emit_output {ε α : Type} (emissions : List α) (res : Except ε α) :
    List α :=
  match res with
  | Except.ok o => emissions ++ [o]
  | Except.error _ => emissions

/-- One iteration of the select loop shared (verbatim up to the sync/async
channel API) by `DiskProvider::start_sync` (`disk_provider.rs` lines
108-125), `IpProvider::start_async` (`ip_provider.rs` lines 84-101) and
`WeatherProvider::start_async` (`weather_provider.rs` lines 160-177): on a
tick, `run_interval`'s result is passed to `emit_output`; on a `Stop`
message, the loop breaks.  A loop that has already broken processes nothing
further — events reaching a stopped loop leave its state unchanged. -/
def loopStep {ε α : Type} (s : LoopState α) (ev : LoopEvent ε α) :
    LoopState α :=
  if s.stopped then s
  else
    match ev with
    | LoopEvent.tick res =>
        ⟨emit_output s.emissions res, s.refreshes + 1, false⟩
    | LoopEvent.msg ProviderInputMsg.Stop =>
        ⟨s.emissions, s.refreshes, true⟩

/-- A run of a provider select loop over a finite schedule of events,
starting idle with no emissions (the loop entry state of `start_sync` /
`start_async`). -/
def startLoop {ε α : Type} (events : List (LoopEvent ε α)) : LoopState α :=
  events.foldl loopStep ⟨[], 0, false⟩

/- ================= Tokio interval timer model ================= -/

/-- `tokio::time::MissedTickBehavior`.  The `impl_interval_provider` loop
configures its interval with the `Skip` variant
(`providers/provider.rs` lines 57-60). -/
inductive MissedTickBehavior where
  | Burst
  | Delay
  | Skip
  deriving DecidableEq, Repr

/-- The missed-tick behavior set on the interval of the
`impl_interval_provider` loop, `providers/provider.rs` lines 59-60. -/
def intervalMissedTickBehavior : MissedTickBehavior := MissedTickBehavior.Skip

/-- Deadline update of a tokio interval after a tick fired at time `fire`
against deadline `deadline`, following tokio's documented semantics: `Burst`
keeps the original cadence (deadlines can fall arbitrarily far behind real
time, so missed ticks fire back-to-back); `Delay` schedules one period after
the actual fire; `Skip` skips missed deadlines and resumes at the next
multiple of the period after the fire (so the next deadline always lies in
the future). -/
def nextDeadline (b : MissedTickBehavior) (period fire deadline : Nat) :
    Nat :=
  match b with
  | MissedTickBehavior.Burst => deadline + period
  | MissedTickBehavior.Delay => fire + period
  | MissedTickBehavior.Skip => period * (fire / period + 1)

/-- Fire times of successive `interval.tick()` awaits.  `deadline` is the
pending tick deadline (`0` at interval creation: a tokio interval's first
tick completes immediately) and `readies` are the absolute times at which the
loop body comes back to await the next tick.  A tick completes at its
deadline, or immediately if the deadline already passed. -/
def runTicks (b : MissedTickBehavior) (period : Nat) :
    Nat → List Nat → List Nat
  | _, [] => []
  | deadline, r :: rest =>
      max deadline r ::
        runTicks b period (nextDeadline b period (max deadline r) deadline)
          rest

/- ============== Shared sysinfo snapshot, CPU and Memory ================ -/

/-- The memory and swap counters of the machine, exactly the fields read by
`MemoryProvider::get_refreshed_variables`
(`providers/memory/provider.rs` lines 66-71). -/
structure MemCounters where
  free_memory : Nat
  used_memory : Nat
  total_memory : Nat
  free_swap : Nat
  used_swap : Nat
  total_swap : Nat
  deriving DecidableEq, Repr

/-- The shared `sysinfo::System` snapshot held under `Arc<Mutex<_>>` by the
CPU and Memory providers: its stored memory counters and (abstractly) its
stored CPU counters.  A field of the snapshot changes only when a refresh
call overwrites it. -/
structure SysinfoSystem where
  mem : MemCounters
  cpu : Nat
  deriving DecidableEq, Repr

/-- `sysinfo`'s `System::refresh_memory`: re-reads the machine's current
memory counters into the snapshot, leaving the CPU counters untouched. -/
def System.refresh_memory (sys : SysinfoSystem) (machine : MemCounters) :
    SysinfoSystem :=
  ⟨machine, sys.cpu⟩

/-- `MemoryVariables`, the fields emitted by the memory provider
(`providers/memory/provider.rs` lines 65-72). -/
structure MemoryVariables where
  free_memory : Nat
  used_memory : Nat
  total_memory : Nat
  free_swap : Nat
  used_swap : Nat
  total_swap : Nat
  deriving DecidableEq, Repr

/-- `CpuVariables` as constructed by `CpuProvider::refresh_and_emit`
(`providers/cpu/provider.rs` line 40). -/
structure CpuVariables where
  usage : Nat
  deriving DecidableEq, Repr

/-- The `ProviderVariables` tagged union restricted to the two variants the
embedded providers construct (`ProviderVariables::Cpu`,
`ProviderVariables::Memory`); its defining module is not part of the
snapshot. -/
inductive ProviderVariables where
  | Cpu (v : CpuVariables)
  | Memory (v : MemoryVariables)
  deriving DecidableEq, Repr

/-- `CpuProvider::refresh_and_emit`, `providers/cpu/provider.rs` lines 33-42:
locks the shared snapshot and emits `CpuVariables { usage: 1 }`; it performs
no refresh call, so the snapshot is returned unchanged. -/
def CpuProvider.refresh_and_emit (sys : SysinfoSystem) :
    SysinfoSystem × ProviderVariables :=
  (sys, ProviderVariables.Cpu ⟨1⟩)

/-- `MemoryProvider::get_refreshed_variables`,
`providers/memory/provider.rs` lines 58-73: locks the shared snapshot, calls
`refresh_memory` (re-reading the machine's counters), then reads exactly the
six memory fields. -/
def MemoryProvider.get_refreshed_variables (sys : SysinfoSystem)
    (machine : MemCounters) : SysinfoSystem × ProviderVariables :=
  let sys2 := System.refresh_memory sys machine
  (sys2, ProviderVariables.Memory
    ⟨sys2.mem.free_memory, sys2.mem.used_memory, sys2.mem.total_memory,
      sys2.mem.free_swap, sys2.mem.used_swap, sys2.mem.total_swap⟩)

/-- The inner `loop` of the task spawned by `CpuProvider::on_start`
(`providers/cpu/provider.rs` lines 57-60), run for a finite number of timer
ticks: each tick performs one `refresh_and_emit`. -/
def CpuProvider.loopTicks (sys : SysinfoSystem) :
    Nat → SysinfoSystem × List ProviderVariables
  | 0 => (sys, [])
  | k + 1 =>
      let e := CpuProvider.refresh_and_emit sys
      let rest := CpuProvider.loopTicks e.1 k
      (rest.1, e.2 :: rest.2)

/-- The run of the task spawned by `CpuProvider::on_start`
(`providers/cpu/provider.rs` lines 51-61) after `n` timer ticks: one
`refresh_and_emit` runs before the loop is entered, then one per tick. -/
def CpuProvider.on_start_run (sys : SysinfoSystem) (n : Nat) :
    SysinfoSystem × List ProviderVariables :=
  let first := CpuProvider.refresh_and_emit sys
  let rest := CpuProvider.loopTicks first.1 n
  (rest.1, first.2 :: rest.2)

/- ================= IP provider coordinate parsing ================= -/

/-- The fields of the `ipinfo.io` response used by `IpProvider::query_ip`
(`providers/ip/ip_provider.rs` lines 60-74); the `IpinfoRes` struct itself is
deserialized from the HTTP body, which the embedding takes as given input. -/
structure IpinfoRes where
  ip : String
  city : String
  country : String
  loc : String
  deriving DecidableEq, Repr

/-- `IpOutput`, `providers/ip/ip_provider.rs` lines 20-28.  The two `f32`
coordinates are modelled as exact rationals. -/
structure IpOutput where
  address : String
  approx_city : String
  approx_country : String
  approx_latitude : ℚ
  approx_longitude : ℚ
  deriving DecidableEq, Repr

/-- Rust's `str::split(',')`: the list of (possibly empty) chunks between
commas, e.g. `"a,b"` to `["a", "b"]` and `"invalid"` to `["invalid"]`. -/
def splitComma (cs : List Char) : List (List Char) :=
  match cs with
  | [] => [[]]
  | ',' :: rest => [] :: splitComma rest
  | c :: rest =>
      match splitComma rest with
      | [] => [[c]]
      | p :: ps => (c :: p) :: ps

/-- Numeric value of a digit string. -/
def digitsVal (cs : List Char) : Nat :=
  cs.foldl (fun a c => a * 10 + (c.toNat - 48)) 0

/-- Syntactic part of the model of Rust's `str::parse::<f32>`, restricted to
plain decimal literals: an optional sign, then digits with at most one
decimal point and at least one digit.  Exponent and `inf`/`NaN` forms —
irrelevant to the strings at issue — are rejected.  On success it returns
the sign, the integer-part value, the fraction-part value and the number of
fraction digits. -/
def parseDecimal (s : List Char) : Option (Bool × Nat × Nat × Nat) :=
  let signAndRest : Bool × List Char :=
    match s with
    | '-' :: rest => (true, rest)
    | '+' :: rest => (false, rest)
    | cs => (false, cs)
  let neg := signAndRest.1
  let cs := signAndRest.2
  let ipart := cs.takeWhile (fun c => c ≠ '.')
  let rest := cs.dropWhile (fun c => c ≠ '.')
  if ipart.all Char.isDigit then
    match rest with
    | [] => if ipart.isEmpty then none else some (neg, digitsVal ipart, 0, 0)
    | _ :: fpart =>
        if fpart.all Char.isDigit && !(ipart.isEmpty && fpart.isEmpty) then
          some (neg, digitsVal ipart, digitsVal fpart, fpart.length)
        else none
  else none

/-- Model of Rust's `str::parse::<f32>` on the forms accepted by
`parseDecimal`; the numeric value is kept exactly as a rational instead of
being rounded to binary `f32`. -/
def parseF32 (s : List Char) : Option ℚ :=
  (parseDecimal s).map fun t =>
    (if t.1 then -1 else 1) *
      ((t.2.1 : ℚ) + (t.2.2.1 : ℚ) / (10 : ℚ) ^ t.2.2.2)

/-- `IpProvider::query_ip`, `providers/ip/ip_provider.rs` lines 52-75,
starting from the deserialized response: splits `loc` on commas, parses the
first chunk as the latitude and the second as the longitude, and fails with
the corresponding `context` message when a chunk is missing or unparsable.
The function is total: malformed input yields `Except.error`, never a
panic. -/
def IpProvider.query_ip (res : IpinfoRes) : Except String IpOutput :=
  let loc_parts := splitComma res.loc.data
  match (loc_parts.get? 0).bind parseF32 with
  | none => Except.error "Failed to parse latitude from IPinfo."
  | some lat =>
      match (loc_parts.get? 1).bind parseF32 with
      | none => Except.error "Failed to parse longitude from IPinfo."
      | some lon => Except.ok ⟨res.ip, res.city, res.country, lat, lon⟩

/-- C1 (counterexample): the claim quantifies over every call to
`get_weather_status`, and the repository holds two implementations of that
symbol.  The legacy one (`providers/weather/provider.rs` lines 37-55) maps
code `96` to `Snow` for both day and night — it has no `ThunderNight` member
at all — and maps code `65` at daytime to `HeavyRain`, not `HeavyRainDay`.
So the claim as stated is false at code `96`, `is_daytime = false`. -/
theorem weather_banding_legacy_counterexample :
    WeatherProviderLegacy.get_weather_status 96 false =
      WeatherStatusLegacy.Snow ∧
    WeatherProviderLegacy.get_weather_status 96 true =
      WeatherStatusLegacy.Snow ∧
    WeatherProviderLegacy.get_weather_status 65 true =
      WeatherStatusLegacy.HeavyRain := by
  decide

/-- C1 (amended): for the day/night-aware `WeatherProvider::get_weather_status`
in `providers/weather/weather_provider.rs`, code `0` at daytime yields
`ClearDay`; code `0` at nighttime yields `ClearNight`; code `65` at daytime
yields `HeavyRainDay`; code `96` at nighttime yields `ThunderNight`. -/
theorem weather_banding_daynight :
    WeatherProvider.get_weather_status 0 true = WeatherStatus.ClearDay ∧
    WeatherProvider.get_weather_status 0 false = WeatherStatus.ClearNight ∧
    WeatherProvider.get_weather_status 65 true = WeatherStatus.HeavyRainDay ∧
    WeatherProvider.get_weather_status 96 false =
      WeatherStatus.ThunderNight := by
  decide

/-- Helper: one deduplicating tick preserves the loop invariant that
`last_interval_res` is the last sent value and no two consecutive sent
values are equal. -/
theorem intervalTick_inv {α : Type} [DecidableEq α]
    (s : IntervalLoopState α) (r : α) (b : Bool)
    (h1 : s.last_interval_res = s.sent.getLast?)
    (h2 : List.Chain' (fun a b => a ≠ b) s.sent) :
    (intervalTick false s r b).last_interval_res =
      (intervalTick false s r b).sent.getLast? ∧
    List.Chain' (fun a b => a ≠ b) (intervalTick false s r b).sent := by
  by_cases hc : s.last_interval_res = some r
  · unfold intervalTick
    rw [if_neg (by simp [hc])]
    exact ⟨h1, h2⟩
  · unfold intervalTick
    rw [if_pos (Or.inr hc)]
    constructor
    · simp
    · apply List.Chain'.append h2 (List.chain'_singleton r)
      intro x hx y hy
      simp only [List.head?_cons, Option.mem_def, Option.some.injEq] at hy
      subst hy
      intro hxr
      apply hc
      rw [h1, ← hxr]
      exact hx

/-- Helper: the invariant holds of every run of the deduplicating loop. -/
theorem intervalRun_inv {α : Type} [DecidableEq α] (ticks : List (α × Bool)) :
    (intervalRun false ticks).last_interval_res =
      (intervalRun false ticks).sent.getLast? ∧
    List.Chain' (fun a b => a ≠ b) (intervalRun false ticks).sent := by
  suffices h : ∀ (s : IntervalLoopState α),
      s.last_interval_res = s.sent.getLast? →
      List.Chain' (fun a b => a ≠ b) s.sent →
      (List.foldl (fun s t => intervalTick false s t.1 t.2) s
          ticks).last_interval_res =
        (List.foldl (fun s t => intervalTick false s t.1 t.2) s
          ticks).sent.getLast? ∧
      List.Chain' (fun a b => a ≠ b)
        (List.foldl (fun s t => intervalTick false s t.1 t.2) s ticks).sent by
    exact h ⟨none, [], []⟩ rfl (by simp)
  induction ticks with
  | nil => exact fun s h1 h2 => ⟨h1, h2⟩
  | cons t ts ih =>
      intro s h1 h2
      have hs := intervalTick_inv s t.1 t.2 h1 h2
      exact ih _ hs.1 hs.2

/-- C2 (code evaluated at the failing input): for every provider type whose
`Provider` impl is generated by `impl_interval_provider`, the tag is `Sync`,
so the dispatch selects `run_sync` — which is still the trait's `todo!()`
default and panics; the generated interval loop sits in the never-selected
`run_async` callback. -/
theorem interval_provider_selected_run_is_todo :
    selectedRun intervalProviderDispatch = RunBody.todoUnimplemented ∧
    intervalProviderDispatch.threading_type = ThreadingType.Sync ∧
    intervalProviderDispatch.run_async = RunBody.intervalLoop := by
  decide

/-- C3: for every run of the `impl_interval_provider` loop with
`allow_identical_emits = false`, no two consecutively sent results on
`emit_result_tx` are equal by value; in particular two consecutive ticks
producing the identical result yield exactly one send. -/
theorem interval_dedup_no_consecutive_identical {α : Type} [DecidableEq α]
    (ticks : List (α × Bool)) :
    List.Chain' (fun a b => a ≠ b) (intervalRun false ticks).sent ∧
    ∀ (r : α) (b₁ b₂ : Bool),
      (intervalRun false [(r, b₁), (r, b₂)]).sent = [r] := by
  refine ⟨(intervalRun_inv ticks).2, ?_⟩
  intro r b₁ b₂
  simp [intervalRun, intervalTick]

/-- C10: in the `impl_interval_provider` loop with de-duplication enabled,
when the channel send of a fresh result fails, `last_interval_res` is still
updated to that result, nothing is delivered to subscribers, and a following
tick producing the identical result is suppressed outright — even though the
failed value was never delivered. -/
theorem send_failure_still_updates_last {α : Type} [DecidableEq α]
    (s : IntervalLoopState α) (r : α)
    (h : s.last_interval_res ≠ some r) :
    (intervalTick false s r false).last_interval_res = some r ∧
    (intervalTick false s r false).delivered = s.delivered ∧
    intervalTick false (intervalTick false s r false) r true =
      intervalTick false s r false := by
  have h1 : intervalTick false s r false =
      { last_interval_res := some r
        sent := s.sent ++ [r]
        delivered := s.delivered ++ [] } := by
    unfold intervalTick
    rw [if_pos (Or.inr h)]
    simp
  refine ⟨by rw [h1], by rw [h1]; simp, ?_⟩
  rw [h1]
  unfold intervalTick
  rw [if_neg (by simp)]

/-- C10 witness: concrete run at a fresh state. -/
theorem send_failure_still_updates_last_witness :
    (intervalTick false (⟨none, [], []⟩ : IntervalLoopState Nat) 0
        false).last_interval_res = some 0 ∧
    (intervalTick false (⟨none, [], []⟩ : IntervalLoopState Nat) 0
        false).delivered = [] ∧
    intervalTick false
        (intervalTick false (⟨none, [], []⟩ : IntervalLoopState Nat) 0 false)
        0 true =
      intervalTick false (⟨none, [], []⟩ : IntervalLoopState Nat) 0 false :=
  send_failure_still_updates_last ⟨none, [], []⟩ 0 (by decide)

/-- Helper: a loop that has broken ignores a further event. -/
theorem loopStep_of_stopped {ε α : Type} (s : LoopState α)
    (ev : LoopEvent ε α) (h : s.stopped = true) : loopStep s ev = s := by
  unfold loopStep
  rw [if_pos h]

/-- Helper: a loop that has broken ignores every further event. -/
theorem foldl_loopStep_of_stopped {ε α : Type} (s : LoopState α)
    (evs : List (LoopEvent ε α)) (h : s.stopped = true) :
    List.foldl loopStep s evs = s := by
  induction evs with
  | nil => rfl
  | cons e es ih => rw [List.foldl_cons, loopStep_of_stopped s e h, ih]

/-- Helper: processing a `Stop` message leaves the loop in the broken
state. -/
theorem loopStep_stop_stopped {ε α : Type} (s : LoopState α) :
    LoopState.stopped
      (loopStep s (LoopEvent.msg ProviderInputMsg.Stop : LoopEvent ε α)) =
      true := by
  unfold loopStep
  by_cases h : s.stopped = true
  · rw [if_pos h]
    exact h
  · rw [if_neg h]

/-- Helper: a running loop handles a failing tick by performing the refresh
and emitting nothing. -/
theorem loopStep_tick_error {ε α : Type} (s : LoopState α) (e : ε)
    (h : s.stopped = false) :
    loopStep s (LoopEvent.tick (Except.error e)) =
      ⟨s.emissions, s.refreshes + 1, false⟩ := by
  unfold loopStep
  rw [if_neg (by simp [h])]
  rfl

/-- C6: in the select loops of `DiskProvider::start_sync`,
`IpProvider::start_async` and `WeatherProvider::start_async`, once a `Stop`
message is received the loop exits: the events scheduled after it cause no
further refreshes and no further emissions (the run's whole observable state
equals that of the run ending at the `Stop`), and the resulting state is
stopped — terminally. -/
theorem stop_message_terminal {ε α : Type}
    (evs₁ evs₂ : List (LoopEvent ε α)) :
    startLoop (evs₁ ++ LoopEvent.msg ProviderInputMsg.Stop :: evs₂) =
      startLoop (evs₁ ++ [LoopEvent.msg ProviderInputMsg.Stop]) ∧
    (startLoop (evs₁ ++ [LoopEvent.msg ProviderInputMsg.Stop])).stopped
      = true := by
  have hstop :
      (startLoop (evs₁ ++ [LoopEvent.msg ProviderInputMsg.Stop]) :
        LoopState α).stopped = true := by
    unfold startLoop
    rw [List.foldl_append, List.foldl_cons, List.foldl_nil]
    exact loopStep_stop_stopped _
  refine ⟨?_, hstop⟩
  unfold startLoop
  rw [List.foldl_append, List.foldl_cons,
    List.foldl_append, List.foldl_cons, List.foldl_nil]
  exact foldl_loopStep_of_stopped _ _ (loopStep_stop_stopped _)

/-- C4: in the `IpProvider::start_async` and `WeatherProvider::start_async`
loops (and equally `DiskProvider::start_sync`), a tick whose `run_interval`
returns an error is handled locally: the emissions delivered to subscribers
are exactly those before the tick (no error value is emitted, the previous
Output stays the last delivered value), the loop does not terminate, and the
refresh was still performed on schedule. -/
theorem refresh_error_handled_locally {ε α : Type}
    (evs : List (LoopEvent ε α)) (e : ε)
    (h : (startLoop evs).stopped = false) :
    (startLoop (evs ++ [LoopEvent.tick (Except.error e)])).emissions =
      (startLoop evs).emissions ∧
    (startLoop (evs ++ [LoopEvent.tick (Except.error e)])).stopped = false ∧
    (startLoop (evs ++ [LoopEvent.tick (Except.error e)])).refreshes =
      (startLoop evs).refreshes + 1 := by
  unfold startLoop at h ⊢
  rw [List.foldl_append, List.foldl_cons, List.foldl_nil,
    loopStep_tick_error _ e h]
  exact ⟨rfl, rfl, rfl⟩

/-- C4 witness: a concrete run, one successful tick then one failing tick. -/
theorem refresh_error_handled_locally_witness :
    (startLoop (([LoopEvent.tick (Except.ok 0)] : List (LoopEvent Nat Nat))
        ++ [LoopEvent.tick (Except.error 1)])).emissions =
      (startLoop ([LoopEvent.tick (Except.ok 0)] :
        List (LoopEvent Nat Nat))).emissions ∧
    (startLoop (([LoopEvent.tick (Except.ok 0)] : List (LoopEvent Nat Nat))
        ++ [LoopEvent.tick (Except.error 1)])).stopped = false ∧
    (startLoop (([LoopEvent.tick (Except.ok 0)] : List (LoopEvent Nat Nat))
        ++ [LoopEvent.tick (Except.error 1)])).refreshes =
      (startLoop ([LoopEvent.tick (Except.ok 0)] :
        List (LoopEvent Nat Nat))).refreshes + 1 :=
  refresh_error_handled_locally [LoopEvent.tick (Except.ok 0)] 1 (by decide)

/-- Helper: with `Skip` behavior and a positive period, the deadline
scheduled after a tick fired at `fire` lies strictly in the future, whatever
the previous deadline was — the missed multiples of the period are
skipped. -/
theorem skip_nextDeadline_gt (p fire d : Nat) (hp : 0 < p) :
    fire < nextDeadline MissedTickBehavior.Skip p fire d := by
  have h1 : fire % p < p := Nat.mod_lt _ hp
  have h2 : p * (fire / p) + fire % p = fire := Nat.div_add_mod fire p
  have h3 : p * (fire / p + 1) = p * (fire / p) + p :=
    Nat.mul_succ p (fire / p)
  show fire < p * (fire / p + 1)
  omega

/-- Helper: the first tick of a schedule never fires before the pending
deadline... it fires at the deadline or later. -/
theorem runTicks_head_ge (b : MissedTickBehavior) (p d : Nat)
    (readies : List Nat) :
    ∀ x ∈ (runTicks b p d readies).head?, d ≤ x := by
  cases readies with
  | nil => simp [runTicks]
  | cons r rest =>
      intro x hx
      simp only [runTicks, List.head?_cons, Option.mem_def,
        Option.some.injEq] at hx
      omega

/-- Helper: a schedule yields exactly one fire per `tick()` await. -/
theorem runTicks_length (b : MissedTickBehavior) (p : Nat) :
    ∀ (readies : List Nat) (d : Nat),
      (runTicks b p d readies).length = readies.length := by
  intro readies
  induction readies with
  | nil => intro d; rfl
  | cons r rest ih =>
      intro d
      show (max d r :: runTicks b p _ rest).length = _
      rw [List.length_cons, ih]
      rfl

/-- Helper: with `Skip` behavior the fire times are strictly increasing. -/
theorem runTicks_skip_chain (p : Nat) (hp : 0 < p) :
    ∀ (readies : List Nat) (d : Nat),
      List.Chain' (fun a b => a < b)
        (runTicks MissedTickBehavior.Skip p d readies) := by
  intro readies
  induction readies with
  | nil => intro d; simp [runTicks]
  | cons r rest ih =>
      intro d
      show List.Chain' (fun a b => a < b)
        (max d r :: runTicks MissedTickBehavior.Skip p
          (nextDeadline MissedTickBehavior.Skip p (max d r) d) rest)
      rw [List.chain'_cons']
      refine ⟨?_, ih _⟩
      intro y hy
      have hge := runTicks_head_ge MissedTickBehavior.Skip p _ rest y hy
      have hgt := skip_nextDeadline_gt p (max d r) d hp
      omega

/-- C7: the `impl_interval_provider` loop sets `MissedTickBehavior::Skip` on
its interval; under the embedded tokio schedule this means every run has
exactly one refresh per `tick()` await, the fire times are strictly
increasing (no two refreshes fire back-to-back at the same delayed instant,
so no backlog ever replays), and after a tick fires — however late — the next
deadline is strictly in the future, the missed multiples of the period being
skipped. -/
theorem skip_missed_ticks_no_backlog (p d fire dl : Nat)
    (readies : List Nat) (hp : 0 < p) :
    (runTicks intervalMissedTickBehavior p d readies).length =
      readies.length ∧
    List.Chain' (fun a b => a < b)
      (runTicks intervalMissedTickBehavior p d readies) ∧
    fire < nextDeadline intervalMissedTickBehavior p fire dl :=
  ⟨runTicks_length intervalMissedTickBehavior p readies d,
    runTicks_skip_chain p hp readies d,
    skip_nextDeadline_gt p fire dl hp⟩

/-- C7 witness: period 2, both awaits arriving late at time 5. -/
theorem skip_missed_ticks_no_backlog_witness :
    (runTicks intervalMissedTickBehavior 2 0 [5, 5]).length =
      [5, 5].length ∧
    List.Chain' (fun a b => a < b)
      (runTicks intervalMissedTickBehavior 2 0 [5, 5]) ∧
    5 < nextDeadline intervalMissedTickBehavior 2 5 0 :=
  skip_missed_ticks_no_backlog 2 0 5 0 [5, 5] (by decide)

/-- C8: `CpuProvider::on_start` emits once before its loop is entered, so
the first emission precedes every timer tick; and the
`impl_interval_provider` loop's interval has its first tick pending at time
`0` (a fresh tokio interval completes its first tick immediately), so the
first refresh fires at time `0`, before the first full period `p > 0`
elapses. -/
theorem immediate_first_emission (p n : Nat) (rest : List Nat)
    (sys : SysinfoSystem) (hp : 0 < p) :
    (CpuProvider.on_start_run sys n).2.head? =
      some (ProviderVariables.Cpu ⟨1⟩) ∧
    (runTicks intervalMissedTickBehavior p 0 (0 :: rest)).head? = some 0 ∧
    0 < p := by
  refine ⟨rfl, ?_, hp⟩
  simp [runTicks]

/-- C8 witness: period 1000, no further ticks, a zeroed snapshot. -/
theorem immediate_first_emission_witness :
    (CpuProvider.on_start_run ⟨⟨0, 0, 0, 0, 0, 0⟩, 0⟩ 0).2.head? =
      some (ProviderVariables.Cpu ⟨1⟩) ∧
    (runTicks intervalMissedTickBehavior 1000 0 (0 :: [])).head? = some 0 ∧
    0 < 1000 :=
  immediate_first_emission 1000 0 [] ⟨⟨0, 0, 0, 0, 0, 0⟩, 0⟩ (by decide)

/-- C9: a CPU provider refresh returns the shared snapshot unchanged — in
particular the memory fields the Memory provider previously read keep their
values — while `MemoryProvider::get_refreshed_variables` overwrites exactly
the memory counters (via `refresh_memory`) and leaves the CPU counters
untouched: each provider's refresh touches only the counters it needs. -/
theorem shared_snapshot_isolation (sys : SysinfoSystem)
    (machine : MemCounters) :
    (CpuProvider.refresh_and_emit sys).1 = sys ∧
    (CpuProvider.refresh_and_emit sys).1.mem = sys.mem ∧
    (MemoryProvider.get_refreshed_variables sys machine).1.mem = machine ∧
    (MemoryProvider.get_refreshed_variables sys machine).1.cpu = sys.cpu :=
  ⟨rfl, rfl, rfl, rfl⟩

/-- Helper: parsing the latitude chunk of `"48.8566,2.3522"`. -/
theorem parseF32_latitude :
    parseF32 ['4', '8', '.', '8', '5', '6', '6'] = some (48.8566 : ℚ) := by
  have hd : parseDecimal ['4', '8', '.', '8', '5', '6', '6'] =
      some (false, 48, 8566, 4) := by decide
  unfold parseF32
  rw [hd]
  simp only [Option.map]
  norm_num

/-- Helper: parsing the longitude chunk of `"48.8566,2.3522"`. -/
theorem parseF32_longitude :
    parseF32 ['2', '.', '3', '5', '2', '2'] = some (2.3522 : ℚ) := by
  have hd : parseDecimal ['2', '.', '3', '5', '2', '2'] =
      some (false, 2, 3522, 4) := by decide
  unfold parseF32
  rw [hd]
  simp only [Option.map]
  norm_num

/-- Helper: `"invalid"` is not a number. -/
theorem parseF32_invalid :
    parseF32 ['i', 'n', 'v', 'a', 'l', 'i', 'd'] = none := by
  have hd : parseDecimal ['i', 'n', 'v', 'a', 'l', 'i', 'd'] = none := by
    decide
  unfold parseF32
  rw [hd]
  rfl

/-- C5: `IpProvider::query_ip` parses the comma-separated `loc` field as
latitude then longitude: `"48.8566,2.3522"` yields `Ok` with latitude
`48.8566` and longitude `2.3522`, and `"invalid"` yields an `Err` carrying
the latitude context message — a refresh-level failure, not a panic (the
embedded function is total). -/
theorem ip_coordinate_parsing (ip city country : String) :
    IpProvider.query_ip ⟨ip, city, country, "48.8566,2.3522"⟩ =
      Except.ok ⟨ip, city, country, 48.8566, 2.3522⟩ ∧
    IpProvider.query_ip ⟨ip, city, country, "invalid"⟩ =
      Except.error "Failed to parse latitude from IPinfo." := by
  constructor
  · have hsplit : splitComma "48.8566,2.3522".data =
        ["48.8566".data, "2.3522".data] := by decide
    unfold IpProvider.query_ip
    simp only [hsplit, List.get?, Option.some_bind, Option.none_bind,
      parseF32_latitude, parseF32_longitude]
  · have hsplit : splitComma "invalid".data = ["invalid".data] := by decide
    unfold IpProvider.query_ip
    simp only [hsplit, List.get?, Option.some_bind, Option.none_bind,
      parseF32_invalid]

end Zebar
